import Mathlib

/-!
Verification development for the camino-mcp repository: a Model Context
Protocol (MCP) adapter exposing six location-intelligence tools backed by a
remote HTTP API.

The embedding models the runtime JavaScript semantics of the TypeScript
sources:
* `JsVal` is the dynamic JavaScript value universe (JSON values plus
  `undefined` and Error objects), with JS truthiness and the `||` operator.
* `CaminoApiService` (src/services/camino-api.ts) becomes pure request
  constructors (`executeQueryRequest`, ..., `planRouteRequest`) describing the
  exact HTTP call each operation issues, and run functions
  (`executeQueryRun`, ..., `planRouteRun`) describing each operation's result
  given an abstract upstream outcome (success payload, or a transport/non-2xx
  failure carried by `AxiosError`).
* The stdio-bound server (src/server.ts) becomes argument-normalisation
  functions (`mkQueryRequest`, ...), the `executeTool` dispatch switch and the
  `callToolHandler` wrapper that converts internal exceptions to MCP protocol
  errors.
* The session-factory server (src/index.ts) contributes the zod argument
  schema of the journey tool (`zodJourneyArgsOk`) and its validation-gated
  pipeline.
* The diagnostic logger (src/utils/logger.ts) becomes effect descriptions
  (`loggerDebug`, `loggerInfo`, `loggerError`) recording file, stderr and
  stdout writes.

A central modelling point: src/services/camino-api.ts imports only axios and
the type module (its lines 1-11); the identifier `Logger` used in the catch
blocks of `getPlaceContext`, `planJourney` and `planRoute` is not among the
imported names, so at runtime evaluating `Logger.error(...)` throws
`ReferenceError: Logger is not defined`. This is made explicit through
`caminoApiImportedNames` and `evalLoggerErrorStmt`.
-/

/-- Dynamic JavaScript values as they occur at the adapter's boundaries:
JSON values plus `undefined` and Error objects (an Error carries its
message). Numbers are modelled as rationals; NaN does not occur in the
modelled code paths. -/
inductive JsVal where
  | undefined
  | null
  | bool (b : Bool)
  | num (q : Rat)
  | str (s : String)
  | arr (xs : List JsVal)
  | obj (fields : List (String × JsVal))
  | jsErr (message : String)

/-- JavaScript truthiness of a value (`undefined`, `null`, `false`, `0` and
the empty string are falsy; arrays, objects and Error objects are truthy). -/
def JsVal.truthy : JsVal → Bool
  | .undefined => false
  | .null => false
  | .bool b => b
  | .num q => !(q == 0)
  | .str s => !(s == "")
  | .arr _ => true
  | .obj _ => true
  | .jsErr _ => true

/-- JavaScript `a || b`: returns `a` when `a` is truthy, else `b`. -/
def jsOr (a b : JsVal) : JsVal := if a.truthy then a else b

/-- Property access `v[k]` on a JavaScript value: on an object, the value of
the first field named `k` (or `undefined` when absent); on any other value,
`undefined`. (The modelled code never reads a property of `null` or
`undefined`, so the TypeError of that case is not represented.) -/
def JsVal.get (v : JsVal) (k : String) : JsVal :=
  match v with
  | .obj fields =>
    match fields.lookup k with
    | some w => w
    | none => .undefined
  | _ => .undefined

/-- String conversion of a JavaScript value, as used in logged lines
(the exact number formatting of JS is immaterial to the claims). -/
def jsValToString : JsVal → String
  | .undefined => "undefined"
  | .null => "null"
  | .bool true => "true"
  | .bool false => "false"
  | .num q => toString q
  | .str s => s
  | .arr _ => ""
  | .obj _ => "[object Object]"
  | .jsErr m => "Error: " ++ m

/-- The raw argument object of a tool invocation
(`args: Record<string, any>`). -/
def Args := List (String × JsVal)

/-- Reading one argument field, `undefined` when absent. -/
def argGet (args : Args) (k : String) : JsVal :=
  match List.lookup k args with
  | some v => v
  | none => .undefined

/-- Runtime exceptions of the modelled JavaScript code. -/
inductive RuntimeErr where
  | jsError (message : String)
  | referenceError (name : String)
  | typeError (message : String)
deriving DecidableEq

/-- The `.message` of a thrown value, as read by
`error instanceof Error ? error.message : String(error)`. -/
def runtimeErrMessage : RuntimeErr → String
  | .jsError m => m
  | .referenceError n => n ++ " is not defined"
  | .typeError m => m

/-- An axios failure (transport error or non-2xx response): its `.message`,
and `error.response?.data` when a response body is available. -/
structure AxiosError where
  message : String
  responseData : Option JsVal := none

/-- `error.response?.data?.detail` of a failed call. -/
def errDetail (e : AxiosError) : JsVal :=
  match e.responseData with
  | some d => d.get "detail"
  | none => .undefined

/-- The `error` field placed in a failure envelope:
`error.response?.data?.detail || error.message`. -/
def envError (e : AxiosError) : JsVal :=
  jsOr (errDetail e) (.str e.message)

/-- Outcome of the single upstream HTTP attempt an operation makes. -/
inductive UpstreamOutcome where
  | ok (data : JsVal)
  | fail (e : AxiosError)

/-- The `ApiResponse` envelope of src/types/index.ts as the operations
construct it (the declared optional `message` field is never produced by any
operation and is omitted). -/
structure ApiResponse where
  success : Bool
  data : JsVal := .undefined
  error : JsVal := .undefined

/-- Whether a value is the JavaScript `undefined`. -/
def JsVal.isUndefined : JsVal → Bool
  | .undefined => true
  | _ => false

/-- The envelope as a JavaScript object, in the construction order of the
source literals (`success` first, then `error` when set, then `data`);
fields holding `undefined` are dropped, as JSON serialisation drops them. -/
def encodeApiResponse (r : ApiResponse) : JsVal :=
  .obj ([("success", JsVal.bool r.success)]
    ++ (if r.error.isUndefined then [] else [("error", r.error)])
    ++ (if r.data.isUndefined then [] else [("data", r.data)]))

/-- HTTP method of an upstream call. -/
inductive HttpMethod where
  | get
  | post
deriving DecidableEq

/-- An outbound HTTP request exactly as the axios instance would issue it:
method, base URL and path, query parameters, JSON body, headers, timeout. -/
structure HttpRequest where
  method : HttpMethod
  baseUrl : String
  path : String
  params : List (String × JsVal) := []
  body : JsVal := .undefined
  headers : List (String × String)
  timeout : Rat

/-- `CaminoApiConfig` of src/types/index.ts. -/
structure CaminoApiConfig where
  baseUrl : String
  apiKey : String
  timeout : Option Rat := none

/-- The configured axios instance of `CaminoApiService`. -/
structure Service where
  baseUrl : String
  apiKey : String
  timeout : Rat
  headers : List (String × String)

/-- The `CaminoApiService` constructor: stores the key and creates the axios
instance with `timeout: config.timeout || 30000` (so an absent or zero
timeout becomes 30000) and the three fixed headers. -/
def mkService (config : CaminoApiConfig) : Service :=
  { baseUrl := config.baseUrl
    apiKey := config.apiKey
    timeout :=
      match config.timeout with
      | some t => if t == 0 then 30000 else t
      | none => 30000
    headers :=
      [("Content-Type", "application/json"),
       ("Accept", "application/json"),
       ("X-API-Key", config.apiKey)] }

/-- The identifiers imported at module scope by src/services/camino-api.ts
(its lines 1-11: axios plus the request/response types). -/
def caminoApiImportedNames : List String :=
  ["axios", "AxiosInstance", "QueryRequest", "SearchRequest",
   "SpatialRelationshipRequest", "PlaceContextRequest",
   "JourneyPlanningRequest", "RoutePlanningRequest", "ApiResponse",
   "CaminoApiConfig"]

/-- Evaluating the statement `Logger.error(...)` inside camino-api.ts: the
name `Logger` must resolve in that module's scope; it is not among the
imported names and no global of that name exists, so evaluation throws
`ReferenceError: Logger is not defined`. -/
def evalLoggerErrorStmt : Except RuntimeErr Unit :=
  if caminoApiImportedNames.contains "Logger" then Except.ok ()
  else Except.error (RuntimeErr.referenceError "Logger")

/-- Result of running one upstream-client operation: the value returned to
(or the exception raised at) the caller, together with the lines the
operation wrote to the process's stderr via `console.error`. -/
structure OpRun where
  result : Except RuntimeErr ApiResponse
  stderr : List String := []

/-- `QueryRequest` of src/types/index.ts, with field values as they exist at
runtime (the stdio handler may place any JavaScript value in them). -/
structure QueryRequest where
  query : JsVal
  latitude : JsVal := .undefined
  longitude : JsVal := .undefined
  radius : JsVal := .undefined
  rank : JsVal := .undefined
  limit : JsVal := .undefined
  generate_answer : JsVal := .undefined

/-- `SearchRequest` of src/types/index.ts. -/
structure SearchRequest where
  query : JsVal

/-- `SpatialRelationshipRequest` of src/types/index.ts. -/
structure SpatialRelationshipRequest where
  start_latitude : JsVal
  start_longitude : JsVal
  end_latitude : JsVal
  end_longitude : JsVal
  «include» : JsVal := .undefined

/-- `PlaceContextRequest` of src/types/index.ts. -/
structure PlaceContextRequest where
  latitude : JsVal
  longitude : JsVal
  radius : JsVal := .undefined
  context : JsVal := .undefined

/-- `JourneyPlanningRequest` of src/types/index.ts; `waypoints` is the raw
JavaScript value handed in by the caller. -/
structure JourneyPlanningRequest where
  waypoints : JsVal
  transport_mode : JsVal := .undefined
  time_budget : JsVal := .undefined

/-- `RoutePlanningRequest` of src/types/index.ts. -/
structure RoutePlanningRequest where
  start_latitude : JsVal
  start_longitude : JsVal
  end_latitude : JsVal
  end_longitude : JsVal
  mode : JsVal := .undefined
  include_geometry : JsVal := .undefined

/-- The HTTP call `executeQuery` issues:
`GET /query` with the renamed query parameters. -/
def executeQueryRequest (svc : Service) (req : QueryRequest) : HttpRequest :=
  { method := .get
    baseUrl := svc.baseUrl
    path := "/query"
    params :=
      [("q", req.query), ("lat", req.latitude), ("lon", req.longitude),
       ("radius", req.radius), ("rank", req.rank), ("limit", req.limit),
       ("answer", req.generate_answer)]
    headers := svc.headers
    timeout := svc.timeout }

/-- The HTTP call `executeSearch` issues:
`POST /search` with a `null` body and query parameter `q`. -/
def executeSearchRequest (svc : Service) (req : SearchRequest) : HttpRequest :=
  { method := .post
    baseUrl := svc.baseUrl
    path := "/search"
    params := [("q", req.query)]
    body := .null
    headers := svc.headers
    timeout := svc.timeout }

/-- The HTTP call `calculateSpatialRelationship` issues:
`POST /relationship` with the nested start/end body. -/
def calculateSpatialRelationshipRequest (svc : Service)
    (req : SpatialRelationshipRequest) : HttpRequest :=
  { method := .post
    baseUrl := svc.baseUrl
    path := "/relationship"
    body := .obj
      [("start", .obj [("lat", req.start_latitude), ("lon", req.start_longitude)]),
       ("end", .obj [("lat", req.end_latitude), ("lon", req.end_longitude)]),
       ("include", req.«include»)]
    headers := svc.headers
    timeout := svc.timeout }

/-- The HTTP call `getPlaceContext` issues: `POST /context`. -/
def getPlaceContextRequest (svc : Service) (req : PlaceContextRequest) :
    HttpRequest :=
  { method := .post
    baseUrl := svc.baseUrl
    path := "/context"
    body := .obj
      [("location", .obj [("lat", req.latitude), ("lon", req.longitude)]),
       ("radius", req.radius), ("context", req.context)]
    headers := svc.headers
    timeout := svc.timeout }

/-- The per-waypoint mapping inside `planJourney`:
`wp => ({ lat: wp.lat, lon: wp.lon, purpose: wp.purpose })`. -/
def planJourneyWireWaypoint (wp : JsVal) : JsVal :=
  .obj [("lat", wp.get "lat"), ("lon", wp.get "lon"),
        ("purpose", wp.get "purpose")]

/-- `request.waypoints.map(...)` of `planJourney`. -/
def journeyWireWaypoints (ws : List JsVal) : List JsVal :=
  ws.map planJourneyWireWaypoint

/-- The HTTP call `planJourney` issues once its request body is built:
`POST /journey` with wire waypoints and the constraints object. -/
def planJourneyWireRequest (svc : Service) (ws : List JsVal)
    (transport_mode time_budget : JsVal) : HttpRequest :=
  { method := .post
    baseUrl := svc.baseUrl
    path := "/journey"
    body := .obj
      [("waypoints", .arr (journeyWireWaypoints ws)),
       ("constraints", .obj
         [("transport", jsOr transport_mode (.str "walking")),
          ("time_budget", time_budget)])]
    headers := svc.headers
    timeout := svc.timeout }

/-- Building `planJourney`'s request body: `request.waypoints.map` throws a
TypeError when `waypoints` is not an array, otherwise the `POST /journey`
request is constructed. -/
def planJourneyBuild (svc : Service) (req : JourneyPlanningRequest) :
    Except RuntimeErr HttpRequest :=
  match req.waypoints with
  | .arr ws =>
    Except.ok (planJourneyWireRequest svc ws req.transport_mode req.time_budget)
  | _ => Except.error (.typeError "request.waypoints.map is not a function")

/-- The HTTP call `planRoute` issues: `GET /route`. -/
def planRouteRequest (svc : Service) (req : RoutePlanningRequest) :
    HttpRequest :=
  { method := .get
    baseUrl := svc.baseUrl
    path := "/route"
    params :=
      [("start_lat", req.start_latitude), ("start_lon", req.start_longitude),
       ("end_lat", req.end_latitude), ("end_lon", req.end_longitude),
       ("mode", req.mode), ("include_geometry", req.include_geometry)]
    headers := svc.headers
    timeout := svc.timeout }

/-- Fallback payload of `executeQuery`'s catch block. -/
def queryFallback (req : QueryRequest) : JsVal :=
  .obj [("query", req.query), ("results", .arr []),
        ("total_found", .num 0), ("ai_ranked", .bool false)]

/-- Fallback payload of `executeSearch`'s catch block. -/
def searchFallback (req : SearchRequest) : JsVal :=
  .obj [("query", req.query), ("results", .arr []),
        ("total_found", .num 0), ("source", .str "nominatim")]

/-- Fallback payload of `calculateSpatialRelationship`'s catch block. -/
def spatialFallback (req : SpatialRelationshipRequest) : JsVal :=
  .obj [("start_location",
          .obj [("lat", req.start_latitude), ("lon", req.start_longitude)]),
        ("end_location",
          .obj [("lat", req.end_latitude), ("lon", req.end_longitude)])]

/-- Fallback payload of `getPlaceContext`'s catch block. -/
def contextFallback (req : PlaceContextRequest) : JsVal :=
  .obj [("location", .obj [("lat", req.latitude), ("lon", req.longitude)]),
        ("relevant_places", .obj []), ("total_places_found", .num 0)]

/-- Fallback payload of `planJourney`'s catch block. -/
def journeyFallback (req : JourneyPlanningRequest) : JsVal :=
  .obj [("waypoints", req.waypoints), ("feasible", .bool false)]

/-- Fallback payload of `planRoute`'s catch block. -/
def routeFallback (req : RoutePlanningRequest) : JsVal :=
  .obj [("start_location",
          .obj [("lat", req.start_latitude), ("lon", req.start_longitude)]),
        ("end_location",
          .obj [("lat", req.end_latitude), ("lon", req.end_longitude)]),
        ("mode", jsOr req.mode (.str "car"))]

/-- `executeQuery`: on success the `{success:true, data}` envelope; on an
upstream failure the catch block writes one line via `console.error` and
returns the fallback envelope. -/
def executeQueryRun (req : QueryRequest) (oc : UpstreamOutcome) : OpRun :=
  match oc with
  | .ok d => { result := .ok { success := true, data := d } }
  | .fail e =>
    { result := .ok
        { success := false, data := queryFallback req, error := envError e }
      stderr := ["Query execution failed: " ++ e.message] }

/-- `executeSearch`: same shape as `executeQuery`, with the search
fallback. -/
def executeSearchRun (req : SearchRequest) (oc : UpstreamOutcome) : OpRun :=
  match oc with
  | .ok d => { result := .ok { success := true, data := d } }
  | .fail e =>
    { result := .ok
        { success := false, data := searchFallback req, error := envError e }
      stderr := ["Search execution failed: " ++ e.message] }

/-- `calculateSpatialRelationship`: same shape, with the spatial fallback. -/
def calculateSpatialRelationshipRun (req : SpatialRelationshipRequest)
    (oc : UpstreamOutcome) : OpRun :=
  match oc with
  | .ok d => { result := .ok { success := true, data := d } }
  | .fail e =>
    { result := .ok
        { success := false, data := spatialFallback req, error := envError e }
      stderr := ["Spatial relationship calculation failed: " ++ e.message] }

/-- `getPlaceContext`: the catch block first evaluates `Logger.error(...)`;
only if that statement could run would the fallback envelope be returned. -/
def getPlaceContextRun (req : PlaceContextRequest) (oc : UpstreamOutcome) :
    OpRun :=
  match oc with
  | .ok d => { result := .ok { success := true, data := d } }
  | .fail e =>
    match evalLoggerErrorStmt with
    | .error r => { result := .error r }
    | .ok _ =>
      { result := .ok
          { success := false, data := contextFallback req, error := envError e } }

/-- The catch block of `planJourney` (`Logger.error`, then the fallback
envelope), entered with whatever error was thrown inside the try block. -/
def planJourneyCatch (req : JourneyPlanningRequest) (e : AxiosError) : OpRun :=
  match evalLoggerErrorStmt with
  | .error r => { result := .error r }
  | .ok _ =>
    { result := .ok
        { success := false, data := journeyFallback req, error := envError e } }

/-- `planJourney`: building the body throws a TypeError when `waypoints` is
not an array (caught by the same catch block); otherwise the upstream call is
made and a failure enters the catch block. -/
def planJourneyRun (svc : Service) (req : JourneyPlanningRequest)
    (oc : UpstreamOutcome) : OpRun :=
  match planJourneyBuild svc req with
  | .error r => planJourneyCatch req { message := runtimeErrMessage r }
  | .ok _ =>
    match oc with
    | .ok d => { result := .ok { success := true, data := d } }
    | .fail e => planJourneyCatch req e

/-- `planRoute`: the catch block first evaluates `Logger.error(...)`. -/
def planRouteRun (req : RoutePlanningRequest) (oc : UpstreamOutcome) : OpRun :=
  match oc with
  | .ok d => { result := .ok { success := true, data := d } }
  | .fail e =>
    match evalLoggerErrorStmt with
    | .error r => { result := .error r }
    | .ok _ =>
      { result := .ok
          { success := false, data := routeFallback req, error := envError e } }

/-- JavaScript strict comparison `v !== false`: false exactly on the literal
boolean `false`, true on every other value (including `0`). -/
def jsStrictNeqFalse (v : JsVal) : Bool :=
  match v with
  | .bool false => false
  | _ => true

/-- `executeQueryTool`'s request construction (src/server.ts): copies the
raw arguments, substituting `|| 1000`, `!== false`, `|| 20`, `!== false`. -/
def mkQueryRequest (args : Args) : QueryRequest :=
  { query := argGet args "query"
    latitude := argGet args "latitude"
    longitude := argGet args "longitude"
    radius := jsOr (argGet args "radius") (.num 1000)
    rank := .bool (jsStrictNeqFalse (argGet args "rank"))
    limit := jsOr (argGet args "limit") (.num 20)
    generate_answer := .bool (jsStrictNeqFalse (argGet args "generate_answer")) }

/-- `executeSearchTool`'s request construction. -/
def mkSearchRequest (args : Args) : SearchRequest :=
  { query := argGet args "query" }

/-- `executeSpatialRelationshipTool`'s request construction: `include`
defaults to the four-element list via `||`. -/
def mkSpatialRequest (args : Args) : SpatialRelationshipRequest :=
  { start_latitude := argGet args "start_latitude"
    start_longitude := argGet args "start_longitude"
    end_latitude := argGet args "end_latitude"
    end_longitude := argGet args "end_longitude"
    «include» := jsOr (argGet args "include")
      (.arr [.str "distance", .str "direction", .str "travel_time",
             .str "description"]) }

/-- `executePlaceContextTool`'s request construction. -/
def mkPlaceContextRequest (args : Args) : PlaceContextRequest :=
  { latitude := argGet args "latitude"
    longitude := argGet args "longitude"
    radius := jsOr (argGet args "radius") (.str "500m")
    context := argGet args "context" }

/-- `executeJourneyPlanningTool`'s request construction: the caller's
`waypoints` value is passed through unchanged. -/
def mkJourneyRequest (args : Args) : JourneyPlanningRequest :=
  { waypoints := argGet args "waypoints"
    transport_mode := jsOr (argGet args "transport_mode") (.str "walking")
    time_budget := argGet args "time_budget" }

/-- `executeRoutePlanningTool`'s request construction. -/
def mkRouteRequest (args : Args) : RoutePlanningRequest :=
  { start_latitude := argGet args "start_latitude"
    start_longitude := argGet args "start_longitude"
    end_latitude := argGet args "end_latitude"
    end_longitude := argGet args "end_longitude"
    mode := jsOr (argGet args "mode") (.str "car")
    include_geometry := jsOr (argGet args "include_geometry") (.bool false) }

/-- The result each tool handler returns to the host:
`response.success ? response.data : response` (both server variants use this
exact expression). On failure the whole envelope object is returned. -/
def toolResult (r : ApiResponse) : JsVal :=
  if r.success then r.data else encodeApiResponse r

/-- `executeQueryTool` (src/server.ts): build the request, call the client,
post-process with `toolResult`. -/
def executeQueryToolRun (args : Args) (oc : UpstreamOutcome) :
    Except RuntimeErr JsVal :=
  (executeQueryRun (mkQueryRequest args) oc).result.map toolResult

/-- `executeSearchTool` (src/server.ts). -/
def executeSearchToolRun (args : Args) (oc : UpstreamOutcome) :
    Except RuntimeErr JsVal :=
  (executeSearchRun (mkSearchRequest args) oc).result.map toolResult

/-- `executeSpatialRelationshipTool` (src/server.ts). -/
def executeSpatialRelationshipToolRun (args : Args) (oc : UpstreamOutcome) :
    Except RuntimeErr JsVal :=
  (calculateSpatialRelationshipRun (mkSpatialRequest args) oc).result.map
    toolResult

/-- `executePlaceContextTool` (src/server.ts). -/
def executePlaceContextToolRun (args : Args) (oc : UpstreamOutcome) :
    Except RuntimeErr JsVal :=
  (getPlaceContextRun (mkPlaceContextRequest args) oc).result.map toolResult

/-- `executeJourneyPlanningTool` (src/server.ts). -/
def executeJourneyPlanningToolRun (svc : Service) (args : Args)
    (oc : UpstreamOutcome) : Except RuntimeErr JsVal :=
  (planJourneyRun svc (mkJourneyRequest args) oc).result.map toolResult

/-- `executeRoutePlanningTool` (src/server.ts). -/
def executeRoutePlanningToolRun (args : Args) (oc : UpstreamOutcome) :
    Except RuntimeErr JsVal :=
  (planRouteRun (mkRouteRequest args) oc).result.map toolResult

/-- The six registered tool names, in registration order. -/
def toolNames : List String :=
  ["camino_query", "camino_search", "camino_spatial_relationship",
   "camino_place_context", "camino_journey_planning", "camino_route_planning"]

/-- The `executeTool` switch of src/server.ts: exact string match on the tool
name; the default branch throws `Error('Unknown tool: ...')`. -/
def executeTool (svc : Service) (name : String) (args : Args)
    (oc : UpstreamOutcome) : Except RuntimeErr JsVal :=
  if name = "camino_query" then executeQueryToolRun args oc
  else if name = "camino_search" then executeSearchToolRun args oc
  else if name = "camino_spatial_relationship" then
    executeSpatialRelationshipToolRun args oc
  else if name = "camino_place_context" then executePlaceContextToolRun args oc
  else if name = "camino_journey_planning" then
    executeJourneyPlanningToolRun svc args oc
  else if name = "camino_route_planning" then executeRoutePlanningToolRun args oc
  else Except.error (.jsError ("Unknown tool: " ++ name))

/-- MCP protocol-level errors raised by the request handler. -/
inductive McpProtocolErr where
  | internalError (message : String)
deriving DecidableEq

/-- The `CallToolRequestSchema` handler of src/server.ts: a successful
`executeTool` result becomes the tool result content; any exception is
converted to `McpError(ErrorCode.InternalError, 'Tool execution failed: ' +
message)` and thrown to the protocol layer. -/
def callToolHandler (svc : Service) (name : String) (args : Args)
    (oc : UpstreamOutcome) : Except McpProtocolErr JsVal :=
  match executeTool svc name args oc with
  | .ok v => .ok v
  | .error e =>
    .error (.internalError ("Tool execution failed: " ++ runtimeErrMessage e))

/-- Bytes written to the process's channels by one step: the append-only log
file receives (level, message) entries; stderr and stdout receive lines. -/
structure ChannelWrites where
  logFile : List (String × String) := []
  stderrLines : List String := []
  stdoutLines : List String := []

/-- Sequencing of channel writes. -/
def ChannelWrites.seq (a b : ChannelWrites) : ChannelWrites :=
  { logFile := a.logFile ++ b.logFile
    stderrLines := a.stderrLines ++ b.stderrLines
    stdoutLines := a.stdoutLines ++ b.stdoutLines }

/-- `Logger.debug` (src/utils/logger.ts): writes a file entry only when the
debug flag is set; never touches stdout or stderr. -/
def loggerDebug (debugMode : Bool) (message : String) : ChannelWrites :=
  { logFile := if debugMode then [("DEBUG", message)] else [] }

/-- `Logger.info`: always writes a file entry (independent of the debug
flag); never touches stdout or stderr. -/
def loggerInfo (message : String) : ChannelWrites :=
  { logFile := [("INFO", message)] }

/-- `Logger.error`: always writes a file entry; additionally writes one line
to stderr, but only when the debug flag is set and the error value is
truthy. Nothing is ever written to stdout. -/
def loggerError (debugMode : Bool) (message : String) (err : JsVal) :
    ChannelWrites :=
  { logFile := [("ERROR", message)]
    stderrLines :=
      if debugMode && err.truthy then
        ["[MCP Error] " ++ message ++ ": "
          ++ (match err with
              | .jsErr m => m
              | v => jsValToString v)]
      else [] }

/-- Channel writes of an upstream-client operation run: its `console.error`
lines go to stderr; it writes nothing to stdout or the log file. -/
def opWrites (run : OpRun) : ChannelWrites :=
  { stderrLines := run.stderr }

/-- Channel writes of one stdio-variant `camino_query` invocation:
`executeTool` first calls `Logger.debug('Executing tool', ...)`, then the
query handler runs the upstream operation. The MCP response itself travels
through the SDK transport and is not a diagnostic write. -/
def stdioQueryInvocationWrites (debugMode : Bool) (args : Args)
    (oc : UpstreamOutcome) : ChannelWrites :=
  (loggerDebug debugMode "Executing tool").seq
    (opWrites (executeQueryRun (mkQueryRequest args) oc))

/-- zod `z.number()` acceptance. -/
def zodIsNumber : JsVal → Bool
  | .num _ => true
  | _ => false

/-- zod `z.string()` acceptance. -/
def zodIsString : JsVal → Bool
  | .str _ => true
  | _ => false

/-- zod acceptance of one journey waypoint in the session-factory variant
(src/index.ts): an object with numeric `lat`, numeric `lon` and string
`purpose`. -/
def zodWaypointOk (v : JsVal) : Bool :=
  match v with
  | .obj _ =>
    zodIsNumber (v.get "lat") && zodIsNumber (v.get "lon")
      && zodIsString (v.get "purpose")
  | _ => false

/-- zod acceptance of the `camino_journey_planning` arguments in the
session-factory variant: `waypoints` must be an array of at least two valid
waypoints; `transport_mode` absent (default applies) or one of the three
enum strings; `time_budget` absent or a string. -/
def zodJourneyArgsOk (args : Args) : Bool :=
  (match argGet args "waypoints" with
   | .arr ws => decide (2 ≤ ws.length) && ws.all zodWaypointOk
   | _ => false)
  && (match argGet args "transport_mode" with
      | .undefined => true
      | .str s => ["walking", "driving", "cycling"].contains s
      | _ => false)
  && (match argGet args "time_budget" with
      | .undefined => true
      | .str _ => true
      | _ => false)

/-- The `transport_mode` value the zod parse hands to the handler:
`.default("walking")` replaces an absent value. -/
def zodJourneyParsedTransport (args : Args) : JsVal :=
  match argGet args "transport_mode" with
  | .undefined => .str "walking"
  | v => v

/-- Modelled from the spec: the session-factory variant registers
`camino_journey_planning` with the zod schema of src/index.ts through
`McpServer.tool` of the MCP SDK (an external collaborator whose sources are
not in this repository); per the spec, invalid arguments are rejected by
schema validation before any handler runs, so the upstream request is
constructed only after `zodJourneyArgsOk` accepts the arguments. -/
def statelessJourneyAttempt (svc : Service) (args : Args) :
    Option HttpRequest :=
  if zodJourneyArgsOk args then
    (planJourneyBuild svc
      { waypoints := argGet args "waypoints"
        transport_mode := zodJourneyParsedTransport args
        time_budget := argGet args "time_budget" }).toOption
  else none

/-- The upstream `POST /journey` request the stdio variant attempts for a
`camino_journey_planning` invocation: src/server.ts performs no argument
validation, so the handler always runs and the request is constructed
whenever `waypoints` is an array (of any length). -/
def stdioJourneyAttempt (svc : Service) (args : Args) : Option HttpRequest :=
  (planJourneyBuild svc (mkJourneyRequest args)).toOption

/-- The spec's wire mapping for one journey waypoint, stated in its own
words for comparison with the code: a tool-surface waypoint
`(latitude, longitude, purpose)` is mapped onto `(lat, lon, purpose)` with
`lat` carrying `latitude` and `lon` carrying `longitude`. -/
def specWireWaypointOfSurface (wp : JsVal) : JsVal :=
  .obj [("lat", wp.get "latitude"), ("lon", wp.get "longitude"),
        ("purpose", wp.get "purpose")]

/-- C1: the claim says every Upstream Client operation converts every failing
upstream call into a `{success:false, error, data:<fallback>}` envelope and
never raises. Evaluating the six operations at concrete failing calls shows
this holds for `executeQuery`, `executeSearch` and
`calculateSpatialRelationship`, but `getPlaceContext`, `planJourney` and
`planRoute` raise `ReferenceError: Logger is not defined` from their catch
blocks (camino-api.ts references `Logger` without importing it), so the
failure escapes to the caller instead of the fallback envelope. -/
theorem upstream_failure_results_at_network_error :
    (executeQueryRun { query := .str "coffee shops" }
        (.fail { message := "connect ECONNREFUSED" })).result
      = .ok { success := false, data := queryFallback { query := .str "coffee shops" },
              error := .str "connect ECONNREFUSED" }
    ∧ (executeSearchRun { query := .str "Eiffel Tower" }
        (.fail { message := "connect ECONNREFUSED" })).result
      = .ok { success := false, data := searchFallback { query := .str "Eiffel Tower" },
              error := .str "connect ECONNREFUSED" }
    ∧ (calculateSpatialRelationshipRun
        { start_latitude := .num 1, start_longitude := .num 2,
          end_latitude := .num 3, end_longitude := .num 4 }
        (.fail { message := "connect ECONNREFUSED" })).result
      = .ok { success := false,
              data := spatialFallback
                { start_latitude := .num 1, start_longitude := .num 2,
                  end_latitude := .num 3, end_longitude := .num 4 },
              error := .str "connect ECONNREFUSED" }
    ∧ (getPlaceContextRun { latitude := .num 48, longitude := .num 2 }
        (.fail { message := "connect ECONNREFUSED" })).result
      = .error (.referenceError "Logger")
    ∧ (planJourneyRun (mkService { baseUrl := "https://api.getcamino.ai", apiKey := "key" })
        { waypoints := .arr
            [.obj [("lat", .num 1), ("lon", .num 2), ("purpose", .str "start")],
             .obj [("lat", .num 3), ("lon", .num 4), ("purpose", .str "finish")]] }
        (.fail { message := "connect ECONNREFUSED" })).result
      = .error (.referenceError "Logger")
    ∧ (planRouteRun
        { start_latitude := .num 1, start_longitude := .num 2,
          end_latitude := .num 3, end_longitude := .num 4 }
        (.fail { message := "connect ECONNREFUSED" })).result
      = .error (.referenceError "Logger") :=
  ⟨rfl, rfl, rfl, rfl, rfl, rfl⟩

/-- C5: the claim says every tool's failing call yields an envelope with
`success=false`, the extracted error detail (or transport message) and the
documented fallback echoing the inputs. For `camino_query` the code does
exactly that (first two conjuncts: detail extraction, message fallback), but
for `camino_route_planning` no envelope is returned at all: the catch block
raises `ReferenceError: Logger is not defined` before reaching its return
statement, so the documented route fallback is unreachable. -/
theorem route_planning_failure_envelope_unreachable :
    (executeQueryRun { query := .str "pizza" }
        (.fail { message := "Request failed with status code 500",
                 responseData := some (.obj [("detail", .str "Upstream index unavailable")]) })).result
      = .ok { success := false, data := queryFallback { query := .str "pizza" },
              error := .str "Upstream index unavailable" }
    ∧ (executeQueryRun { query := .str "pizza" }
        (.fail { message := "timeout of 30000ms exceeded" })).result
      = .ok { success := false, data := queryFallback { query := .str "pizza" },
              error := .str "timeout of 30000ms exceeded" }
    ∧ (planRouteRun
        { start_latitude := .num 40, start_longitude := .num (-74),
          end_latitude := .num 41, end_longitude := .num (-73), mode := .str "car" }
        (.fail { message := "timeout of 30000ms exceeded" })).result
      = .error (.referenceError "Logger") :=
  ⟨rfl, rfl, rfl⟩

/-- Tool-surface waypoints of the stdio variant, shaped exactly as its
inputSchema and the README example prescribe:
`latitude`, `longitude`, `purpose`. -/
def surfaceWaypointsExample : List JsVal :=
  [.obj [("latitude", .num 40), ("longitude", .num (-73)),
         ("purpose", .str "pickup coffee")],
   .obj [("latitude", .num 41), ("longitude", .num (-74)),
         ("purpose", .str "business meeting")]]

/-- C2: the claim says each tool-surface waypoint
`(latitude, longitude, purpose)` is mapped onto the wire shape
`(lat, lon, purpose)` carrying the caller's coordinates. The code's mapping
reads `wp.lat` and `wp.lon`, which do not exist on the tool-surface shape,
so the wire waypoints carry `undefined` coordinates (dropped from the JSON
body): the mapping preserves order, length and `purpose`, and the body
carries the constraints object, but the coordinates are lost — the computed
wire list differs from the spec's mapping. -/
theorem journey_waypoint_mapping_drops_surface_coordinates :
    journeyWireWaypoints surfaceWaypointsExample =
      [.obj [("lat", .undefined), ("lon", .undefined), ("purpose", .str "pickup coffee")],
       .obj [("lat", .undefined), ("lon", .undefined), ("purpose", .str "business meeting")]]
    ∧ (planJourneyWireRequest
        (mkService { baseUrl := "https://api.getcamino.ai", apiKey := "key" })
        surfaceWaypointsExample (.str "walking") (.str "2 hours")).method = .post
    ∧ (planJourneyWireRequest
        (mkService { baseUrl := "https://api.getcamino.ai", apiKey := "key" })
        surfaceWaypointsExample (.str "walking") (.str "2 hours")).path = "/journey"
    ∧ (planJourneyWireRequest
        (mkService { baseUrl := "https://api.getcamino.ai", apiKey := "key" })
        surfaceWaypointsExample (.str "walking") (.str "2 hours")).body
      = .obj [("waypoints", .arr
                [.obj [("lat", .undefined), ("lon", .undefined), ("purpose", .str "pickup coffee")],
                 .obj [("lat", .undefined), ("lon", .undefined), ("purpose", .str "business meeting")]]),
              ("constraints", .obj [("transport", .str "walking"),
                                    ("time_budget", .str "2 hours")])]
    ∧ journeyWireWaypoints surfaceWaypointsExample ≠
        surfaceWaypointsExample.map specWireWaypointOfSurface := by
  refine ⟨rfl, rfl, rfl, rfl, ?_⟩
  have hcode : journeyWireWaypoints surfaceWaypointsExample =
      [.obj [("lat", .undefined), ("lon", .undefined), ("purpose", .str "pickup coffee")],
       .obj [("lat", .undefined), ("lon", .undefined), ("purpose", .str "business meeting")]] := rfl
  have hspec : surfaceWaypointsExample.map specWireWaypointOfSurface =
      [.obj [("lat", .num 40), ("lon", .num (-73)), ("purpose", .str "pickup coffee")],
       .obj [("lat", .num 41), ("lon", .num (-74)), ("purpose", .str "business meeting")]] := rfl
  rw [hcode, hspec]
  simp

/-- C3 counterexample: in the stdio-bound variant a `camino_journey_planning`
invocation with a single waypoint is not rejected — the handler runs and the
upstream `POST /journey` request is constructed and attempted, contradicting
the claim that both variants reject short waypoint lists before any upstream
call. -/
theorem single_waypoint_not_rejected_in_stdio_variant :
    (stdioJourneyAttempt
        (mkService { baseUrl := "https://api.getcamino.ai", apiKey := "key" })
        [("waypoints", JsVal.arr
            [.obj [("lat", .num 40), ("lon", .num (-73)),
                   ("purpose", .str "solo stop")]])]).isSome = true := rfl

/-- C3 (amended): a `camino_journey_planning` invocation whose waypoints list
has fewer than two elements is rejected by the zod schema before the handler
runs in the session-factory variant, so no upstream call is attempted there;
in the stdio-bound variant the `minItems: 2` bound is only advertised in the
inputSchema and is not enforced, so the handler runs and the upstream
`planJourney` call is attempted anyway. -/
theorem short_waypoint_list_validation (svc : Service) (args : Args)
    (ws : List JsVal) (hw : argGet args "waypoints" = JsVal.arr ws)
    (hlen : ws.length < 2) :
    statelessJourneyAttempt svc args = none
    ∧ (stdioJourneyAttempt svc args).isSome = true := by
  constructor
  · have hA : decide (2 ≤ ws.length) = false := by
      simp
      omega
    simp [statelessJourneyAttempt, zodJourneyArgsOk, hw, hA]
  · simp [stdioJourneyAttempt, planJourneyBuild, mkJourneyRequest, hw, Except.toOption]

/-- Witness for the amended C3 theorem at an empty waypoints list. -/
theorem short_waypoint_list_validation_witness :
    statelessJourneyAttempt
        (mkService { baseUrl := "https://api.getcamino.ai", apiKey := "key" })
        [("waypoints", JsVal.arr [])] = none
    ∧ (stdioJourneyAttempt
        (mkService { baseUrl := "https://api.getcamino.ai", apiKey := "key" })
        [("waypoints", JsVal.arr [])]).isSome = true :=
  short_waypoint_list_validation
    (mkService { baseUrl := "https://api.getcamino.ai", apiKey := "key" })
    [("waypoints", JsVal.arr [])] [] rfl (by decide)

/-- C4: for every tool invocation, an envelope with `success=true` is
unwrapped — the handler returns exactly the `data` field with no wrapper —
while an envelope with `success=false` is returned whole as an ordinary value
(never converted into a thrown error). The first two conjuncts state the
shared post-processing; the remaining conjuncts run the stdio handlers end to
end: success returns the upstream payload verbatim for all six tools, and for
the three tools whose failure path produces an envelope, the entire envelope
comes back as an `ok` value. -/
theorem envelope_unwrap_policy (svc : Service) (r : ApiResponse) (args : Args)
    (d : JsVal) (e : AxiosError) (ws : List JsVal) :
    (r.success = true → toolResult r = r.data)
    ∧ (r.success = false → toolResult r = encodeApiResponse r)
    ∧ executeQueryToolRun args (.ok d) = .ok d
    ∧ executeSearchToolRun args (.ok d) = .ok d
    ∧ executeSpatialRelationshipToolRun args (.ok d) = .ok d
    ∧ executePlaceContextToolRun args (.ok d) = .ok d
    ∧ executeRoutePlanningToolRun args (.ok d) = .ok d
    ∧ (argGet args "waypoints" = JsVal.arr ws →
        executeJourneyPlanningToolRun svc args (.ok d) = .ok d)
    ∧ executeQueryToolRun args (.fail e) =
        .ok (encodeApiResponse
          { success := false, data := queryFallback (mkQueryRequest args),
            error := envError e })
    ∧ executeSearchToolRun args (.fail e) =
        .ok (encodeApiResponse
          { success := false, data := searchFallback (mkSearchRequest args),
            error := envError e })
    ∧ executeSpatialRelationshipToolRun args (.fail e) =
        .ok (encodeApiResponse
          { success := false, data := spatialFallback (mkSpatialRequest args),
            error := envError e }) := by
  refine ⟨?_, ?_, rfl, rfl, rfl, rfl, rfl, ?_, rfl, rfl, rfl⟩
  · intro h
    simp [toolResult, h]
  · intro h
    simp [toolResult, h]
  · intro hw
    simp [executeJourneyPlanningToolRun, planJourneyRun, planJourneyBuild,
      mkJourneyRequest, hw, toolResult, Except.map]

/-- Witness for C4 at concrete envelopes and a concrete journey invocation. -/
theorem envelope_unwrap_policy_witness :
    toolResult { success := true, data := JsVal.num 7 } = JsVal.num 7
    ∧ toolResult { success := false, data := JsVal.null, error := JsVal.str "boom" }
        = encodeApiResponse
            { success := false, data := JsVal.null, error := JsVal.str "boom" }
    ∧ executeJourneyPlanningToolRun
        (mkService { baseUrl := "https://api.getcamino.ai", apiKey := "key" })
        [("waypoints", JsVal.arr [])] (.ok (.num 1)) = .ok (.num 1) :=
  ⟨(envelope_unwrap_policy
      (mkService { baseUrl := "https://api.getcamino.ai", apiKey := "key" })
      { success := true, data := JsVal.num 7 } [] (.num 7) { message := "x" } []).1 rfl,
   (envelope_unwrap_policy
      (mkService { baseUrl := "https://api.getcamino.ai", apiKey := "key" })
      { success := false, data := JsVal.null, error := JsVal.str "boom" } [] (.num 7)
      { message := "x" } []).2.1 rfl,
   (envelope_unwrap_policy
      (mkService { baseUrl := "https://api.getcamino.ai", apiKey := "key" })
      { success := true } [("waypoints", JsVal.arr [])] (.num 1)
      { message := "x" } []).2.2.2.2.2.2.2.1 rfl⟩

/-- C6: invoking a tool name outside the six registered names (exact string
comparison, no fuzzy match) makes the `executeTool` switch throw
`Error('Unknown tool: ...')`, which the request handler converts into a
protocol-level internal error whose message embeds the underlying cause; no
fallback payload is returned as a tool result. -/
theorem unknown_tool_name_internal_error (svc : Service) (name : String)
    (args : Args) (oc : UpstreamOutcome) (h : name ∉ toolNames) :
    callToolHandler svc name args oc =
      .error (.internalError
        ("Tool execution failed: " ++ ("Unknown tool: " ++ name))) := by
  simp only [toolNames, List.mem_cons, List.not_mem_nil, or_false, not_or] at h
  obtain ⟨h1, h2, h3, h4, h5, h6⟩ := h
  simp [callToolHandler, executeTool, h1, h2, h3, h4, h5, h6, runtimeErrMessage]

/-- Witness for C6 at the unregistered name camino_teleport. -/
theorem unknown_tool_name_internal_error_witness :
    ("camino_teleport" ∉ toolNames)
    ∧ callToolHandler
        (mkService { baseUrl := "https://api.getcamino.ai", apiKey := "key" })
        "camino_teleport" [] (.ok .null) =
      .error (.internalError
        ("Tool execution failed: " ++ ("Unknown tool: " ++ "camino_teleport"))) :=
  ⟨by decide,
   unknown_tool_name_internal_error
     (mkService { baseUrl := "https://api.getcamino.ai", apiKey := "key" })
     "camino_teleport" [] (.ok .null) (by decide)⟩

/-- C7: a `camino_query` invocation supplying only `query` constructs a
`GET /query` upstream call whose parameters use the renamed wire fields
(`q`, `lat`, `lon`, `radius`, `rank`, `limit`, `answer`) and carry the
defaults radius=1000, limit=20, rank=true, answer=true (the absent
coordinates stay `undefined`). -/
theorem camino_query_defaults_and_renames (q : String) (cfg : CaminoApiConfig) :
    (executeQueryRequest (mkService cfg)
        (mkQueryRequest [("query", JsVal.str q)])).method = .get
    ∧ (executeQueryRequest (mkService cfg)
        (mkQueryRequest [("query", JsVal.str q)])).path = "/query"
    ∧ (executeQueryRequest (mkService cfg)
        (mkQueryRequest [("query", JsVal.str q)])).params =
      [("q", .str q), ("lat", .undefined), ("lon", .undefined), ("radius", .num 1000),
       ("rank", .bool true), ("limit", .num 20), ("answer", .bool true)] :=
  ⟨rfl, rfl, rfl⟩

/-- The method, path, query parameters and body of a request — everything
except the instance headers and timeout. -/
def wireView (r : HttpRequest) : HttpMethod × String × List (String × JsVal) × JsVal :=
  (r.method, r.path, r.params, r.body)

/-- C9: a service constructed without an explicit timeout gets the 30000 ms
default, every request any of the six operations constructs carries exactly
the instance headers `Content-Type`, `Accept` and `X-API-Key: <apiKey>`,
and the API key influences nothing but the headers: the wire view (method,
path, parameters, body) of every constructed request is identical under two
different keys, so the key is never placed in the URL or the body. -/
theorem service_timeout_headers_and_key_isolation
    (b k k1 k2 : String) (t : Option Rat) (cfg : CaminoApiConfig)
    (qreq : QueryRequest) (sreq : SearchRequest)
    (preq : SpatialRelationshipRequest) (creq : PlaceContextRequest)
    (rreq : RoutePlanningRequest) (ws : List JsVal) (tm tb : JsVal) :
    (mkService { baseUrl := b, apiKey := k }).timeout = 30000
    ∧ (executeQueryRequest (mkService cfg) qreq).headers =
        [("Content-Type", "application/json"), ("Accept", "application/json"),
         ("X-API-Key", cfg.apiKey)]
    ∧ (executeSearchRequest (mkService cfg) sreq).headers =
        [("Content-Type", "application/json"), ("Accept", "application/json"),
         ("X-API-Key", cfg.apiKey)]
    ∧ (calculateSpatialRelationshipRequest (mkService cfg) preq).headers =
        [("Content-Type", "application/json"), ("Accept", "application/json"),
         ("X-API-Key", cfg.apiKey)]
    ∧ (getPlaceContextRequest (mkService cfg) creq).headers =
        [("Content-Type", "application/json"), ("Accept", "application/json"),
         ("X-API-Key", cfg.apiKey)]
    ∧ (planJourneyWireRequest (mkService cfg) ws tm tb).headers =
        [("Content-Type", "application/json"), ("Accept", "application/json"),
         ("X-API-Key", cfg.apiKey)]
    ∧ (planRouteRequest (mkService cfg) rreq).headers =
        [("Content-Type", "application/json"), ("Accept", "application/json"),
         ("X-API-Key", cfg.apiKey)]
    ∧ wireView (executeQueryRequest (mkService { baseUrl := b, apiKey := k1, timeout := t }) qreq)
      = wireView (executeQueryRequest (mkService { baseUrl := b, apiKey := k2, timeout := t }) qreq)
    ∧ wireView (executeSearchRequest (mkService { baseUrl := b, apiKey := k1, timeout := t }) sreq)
      = wireView (executeSearchRequest (mkService { baseUrl := b, apiKey := k2, timeout := t }) sreq)
    ∧ wireView (calculateSpatialRelationshipRequest (mkService { baseUrl := b, apiKey := k1, timeout := t }) preq)
      = wireView (calculateSpatialRelationshipRequest (mkService { baseUrl := b, apiKey := k2, timeout := t }) preq)
    ∧ wireView (getPlaceContextRequest (mkService { baseUrl := b, apiKey := k1, timeout := t }) creq)
      = wireView (getPlaceContextRequest (mkService { baseUrl := b, apiKey := k2, timeout := t }) creq)
    ∧ wireView (planJourneyWireRequest (mkService { baseUrl := b, apiKey := k1, timeout := t }) ws tm tb)
      = wireView (planJourneyWireRequest (mkService { baseUrl := b, apiKey := k2, timeout := t }) ws tm tb)
    ∧ wireView (planRouteRequest (mkService { baseUrl := b, apiKey := k1, timeout := t }) rreq)
      = wireView (planRouteRequest (mkService { baseUrl := b, apiKey := k2, timeout := t }) rreq) :=
  ⟨rfl, rfl, rfl, rfl, rfl, rfl, rfl, rfl, rfl, rfl, rfl, rfl, rfl⟩

/-- JavaScript strict comparison: `v !== false` holds for every value other
than the literal boolean `false`. -/
theorem jsStrictNeqFalse_of_ne (v : JsVal) (h : v ≠ JsVal.bool false) :
    jsStrictNeqFalse v = true := by
  cases v with
  | bool b =>
    cases b
    · exact absurd rfl h
    · rfl
  | undefined => rfl
  | null => rfl
  | num q => rfl
  | str s => rfl
  | arr xs => rfl
  | obj fs => rfl
  | jsErr m => rfl

/-- C10: in the stdio-bound variant, default substitution replaces falsy
values, not only omitted ones: a supplied radius of 0 becomes 1000 and a
limit of 0 becomes 20; `rank` and `generate_answer` become `true` for every
supplied value other than the literal boolean `false` (in particular for the
number 0); any falsy `mode` becomes the string car and any falsy
`include_geometry` becomes the boolean false. -/
theorem stdio_falsy_default_substitution (args : Args) :
    (argGet args "radius" = JsVal.num 0 →
      (mkQueryRequest args).radius = .num 1000)
    ∧ (argGet args "limit" = JsVal.num 0 →
      (mkQueryRequest args).limit = .num 20)
    ∧ (argGet args "rank" ≠ JsVal.bool false →
      (mkQueryRequest args).rank = .bool true)
    ∧ (argGet args "generate_answer" ≠ JsVal.bool false →
      (mkQueryRequest args).generate_answer = .bool true)
    ∧ ((argGet args "mode").truthy = false →
      (mkRouteRequest args).mode = .str "car")
    ∧ ((argGet args "include_geometry").truthy = false →
      (mkRouteRequest args).include_geometry = .bool false) := by
  refine ⟨?_, ?_, ?_, ?_, ?_, ?_⟩
  · intro h
    simp [mkQueryRequest, jsOr, h, JsVal.truthy]
  · intro h
    simp [mkQueryRequest, jsOr, h, JsVal.truthy]
  · intro h
    simp [mkQueryRequest, jsStrictNeqFalse_of_ne _ h]
  · intro h
    simp [mkQueryRequest, jsStrictNeqFalse_of_ne _ h]
  · intro h
    simp [mkRouteRequest, jsOr, h]
  · intro h
    simp [mkRouteRequest, jsOr, h]

/-- Witness for C10 at concrete falsy argument values (radius 0, limit 0,
rank 0, empty-string generate_answer, empty-string mode, null
include_geometry). -/
theorem stdio_falsy_default_substitution_witness :
    (mkQueryRequest
        [("radius", JsVal.num 0), ("limit", JsVal.num 0), ("rank", JsVal.num 0),
         ("generate_answer", JsVal.str "")]).radius = .num 1000
    ∧ (mkQueryRequest
        [("radius", JsVal.num 0), ("limit", JsVal.num 0), ("rank", JsVal.num 0),
         ("generate_answer", JsVal.str "")]).limit = .num 20
    ∧ (mkQueryRequest
        [("radius", JsVal.num 0), ("limit", JsVal.num 0), ("rank", JsVal.num 0),
         ("generate_answer", JsVal.str "")]).rank = .bool true
    ∧ (mkQueryRequest
        [("radius", JsVal.num 0), ("limit", JsVal.num 0), ("rank", JsVal.num 0),
         ("generate_answer", JsVal.str "")]).generate_answer = .bool true
    ∧ (mkRouteRequest
        [("mode", JsVal.str ""), ("include_geometry", JsVal.null)]).mode = .str "car"
    ∧ (mkRouteRequest
        [("mode", JsVal.str ""), ("include_geometry", JsVal.null)]).include_geometry
      = .bool false := by
  have hq := stdio_falsy_default_substitution
    [("radius", JsVal.num 0), ("limit", JsVal.num 0), ("rank", JsVal.num 0),
     ("generate_answer", JsVal.str "")]
  have hr := stdio_falsy_default_substitution
    [("mode", JsVal.str ""), ("include_geometry", JsVal.null)]
  refine ⟨hq.1 rfl, hq.2.1 rfl, hq.2.2.1 ?_, hq.2.2.2.1 ?_,
    hr.2.2.2.2.1 rfl, hr.2.2.2.2.2 rfl⟩
  · intro hfalse
    cases hfalse
  · intro hfalse
    cases hfalse

/-- C8 counterexample: a failing `camino_query` invocation processed with the
debug flag disabled still writes a line to the side error channel — the
`console.error` call in `executeQuery`'s catch block does not consult the
debug flag — contradicting the claim that nothing is written to the side
error channel when debug is disabled. -/
theorem query_failure_writes_stderr_with_debug_disabled :
    (stdioQueryInvocationWrites false [("query", JsVal.str "coffee")]
        (.fail { message := "getaddrinfo ENOTFOUND api.getcamino.ai" })).stderrLines
      = ["Query execution failed: getaddrinfo ENOTFOUND api.getcamino.ai"] := rfl

/-- C8 (amended): with the debug flag disabled nothing is ever written to
the primary protocol channel (stdout) by an invocation or by any Diagnostic
Sink operation, and the Diagnostic Sink's `error` writes its stderr line only
when the debug flag is set; however, the upstream client's catch blocks that
use `console.error` (`executeQuery`, `executeSearch`,
`calculateSpatialRelationship`) write one line to the side error channel on
every failing call, regardless of the debug flag. -/
theorem debug_disabled_channel_writes (d : Bool) (args : Args)
    (oc : UpstreamOutcome) (m : String) (err : JsVal) (e : AxiosError)
    (qreq : QueryRequest) (sreq : SearchRequest)
    (preq : SpatialRelationshipRequest) :
    (stdioQueryInvocationWrites d args oc).stdoutLines = []
    ∧ (loggerDebug d m).stderrLines = []
    ∧ (loggerDebug d m).stdoutLines = []
    ∧ (loggerInfo m).stderrLines = []
    ∧ (loggerInfo m).stdoutLines = []
    ∧ (loggerError false m err).stderrLines = []
    ∧ (loggerError false m err).stdoutLines = []
    ∧ (executeQueryRun qreq (.fail e)).stderr
        = ["Query execution failed: " ++ e.message]
    ∧ (executeSearchRun sreq (.fail e)).stderr
        = ["Search execution failed: " ++ e.message]
    ∧ (calculateSpatialRelationshipRun preq (.fail e)).stderr
        = ["Spatial relationship calculation failed: " ++ e.message]
    ∧ (stdioQueryInvocationWrites d args (.fail e)).stderrLines
        = ["Query execution failed: " ++ e.message] :=
  ⟨rfl, rfl, rfl, rfl, rfl, rfl, rfl, rfl, rfl, rfl, rfl⟩
